import Mathlib

/-!
Shallow embedding of the authentication front-end of the sprout SIP
registrar (src/sprout/authentication.cpp), of the quiescing state machine
(src/sprout/quiescing_manager.cpp), and of the MMF configuration service
(src/include/mmfservice.h), together with theorems settling the spec claims.

Conventions of the embedding:
- pj_str_t strings become Lean `String`; a pjsip string of slen 0 becomes "".
- The circular pjsip parameter list `other_param` becomes a `List Param`.
- The JSON authentication vector becomes the tagged union `AV` (checked
  membership of the "aka" key first, then "digest", as the source does).
- Calls out to external collaborators (the HSS credential source, the random
  string generator, the digest computation inside the pjsip verifier) enter
  the model as function arguments.
- Side effects on the vector store and outbound calls are made explicit:
  functions return the new store and a trace of `AuthEvent`s.
-/

namespace Sprout

/-- A pjsip name/value parameter (`pjsip_param`). -/
structure Param where
  name : String
  value : String
deriving DecidableEq, Repr

/-- The digest credential sub-fields of an Authorization header that
authentication.cpp reads (`auth_hdr->credential.digest`): `username`,
`response`, `nonce` and the extension parameter list `other_param`.
An absent field (slen 0) is the empty string. -/
structure DigestCredential where
  username : String
  response : String
  nonce : String
  other_param : List Param
deriving DecidableEq, Repr

/-- `pj_tolower` applied to one character: ASCII upper case folded to lower
case, all other characters unchanged. -/
def pj_tolower (c : Char) : Char :=
  if 65 ≤ c.toNat ∧ c.toNat ≤ 90 then Char.ofNat (c.toNat + 32) else c

/-- `pj_stricmp(a, b) == 0`: case-insensitive string equality (`pj_stricmp`
compares the two strings after folding each character with `pj_tolower`). -/
def pj_stricmp_eq (a b : String) : Bool :=
  a.data.map pj_tolower == b.data.map pj_tolower

/-- `pjsip_param_find`: find the first parameter in the list whose name
matches case-insensitively (pjsip compares names with `pj_stricmp`). -/
def pjsip_param_find (ps : List Param) (n : String) : Option Param :=
  ps.find? (fun p => pj_stricmp_eq p.name n)

/-- The authentication vector retrieved from the HSS, as authentication.cpp
consumes it.  The source receives a JSON object and tests `isMember("aka")`
first, else `isMember("digest")`; we embed the two shapes it reads:
`aka` carries `challenge`, `response`, `cryptkey`, `integritykey`;
`digest` carries `realm`, `qop`, `ha1`. -/
inductive AV where
  | aka (challenge response cryptkey integritykey : String)
  | digest (realm qop ha1 : String)
deriving DecidableEq, Repr

/-- Modelled from the spec: the AV store (avstore.h/avstore.cpp are not in
the slice).  VectorStore is a transient keyed cache addressed by
`(privateId, nonce)`; `get` is a non-consuming read and `set` an insertion
(spec section 4.4).  Embedded as an association list keyed by the pair. -/
abbrev AvStore : Type := List ((String × String) × AV)

/-- The empty AV store. -/
def AvStore.empty : AvStore := []

/-- Modelled from the spec: `AvStore::get_av(impi, nonce)` — non-consuming
lookup of the stored vector for `(impi, nonce)`, absent gives NULL. -/
def get_av (s : AvStore) (impi nonce : String) : Option AV :=
  (s.find? (fun e => e.1 == (impi, nonce))).map (fun e => e.2)

/-- Modelled from the spec: `AvStore::set_av(impi, nonce, av)` — insert the
vector keyed by `(impi, nonce)`. -/
def set_av (s : AvStore) (impi nonce : String) (av : AV) : AvStore :=
  ((impi, nonce), av) :: s

/- Constants from constants.h (not in the slice).  The names are the ones
the source uses; the values are modelled from the spec (section 6 names the
algorithm tags `MD5` and `AKAv1-MD5`, qop `auth`, AKA extension parameters
`ck` and `ik`; property P6 names the resync extension parameter `auts`;
the integrity-protection flag and its trusted values follow the spec's
"fixed set of trusted values" carried by the `integrity-protected`
parameter). -/

/-- Modelled from the spec: scheme tag of the challenge. -/
def STR_DIGEST : String := "Digest"

/-- Modelled from the spec: AKA algorithm tag. -/
def STR_AKAV1_MD5 : String := "AKAv1-MD5"

/-- Modelled from the spec: digest algorithm tag. -/
def STR_MD5 : String := "MD5"

/-- Modelled from the spec: quality-of-protection value for AKA. -/
def STR_AUTH : String := "auth"

/-- Modelled from the spec: crypto-key extension parameter name. -/
def STR_CK : String := "ck"

/-- Modelled from the spec: integrity-key extension parameter name. -/
def STR_IK : String := "ik"

/-- Modelled from the spec: name of the resync-token extension parameter
(property P6 of the spec names it `auts`). -/
def STR_AUTN : String := "auts"

/-- Modelled from the spec: name of the integrity-protection flag parameter. -/
def STR_INTEGRITY_PROTECTED : String := "integrity-protected"

/-- Modelled from the spec: trusted integrity-protection value. -/
def STR_YES : String := "yes"

/-- Modelled from the spec: trusted integrity-protection value. -/
def STR_TLS_YES : String := "tls-yes"

/-- Modelled from the spec: trusted integrity-protection value. -/
def STR_IP_ASSOC_YES : String := "ip-assoc-yes"

/-- `PJSIP_SC_FORBIDDEN`. -/
def PJSIP_SC_FORBIDDEN : Nat := 403

/-- `PJSIP_SC_UNAUTHORIZED`. -/
def PJSIP_SC_UNAUTHORIZED : Nat := 401

/-- Modelled from the spec: `PJUtils::default_private_id_from_uri`
(pjutils.cpp is not in the slice).  The private identity is derived from
the public identity by stripping the scheme prefix (the source comment:
"construct a default from the public user identity by stripping the sip:
prefix"). -/
def default_private_id_from_uri (impu : String) : String :=
  if impu.data.take 4 = "sip:".data then String.mk (impu.data.drop 4) else impu

/-- The private-identity computation of `create_challenge` (lines 163-178):
use the Authorization header's username when the header is present and the
username non-empty, else default it from the public identity. -/
def challenge_impi (auth_hdr : Option DigestCredential) (impu : String) : String :=
  match auth_hdr with
  | some h =>
      if h.username.length ≠ 0 then h.username
      else default_private_id_from_uri impu
  | none => default_private_id_from_uri impu

/-- One step of the resync-token scan of `create_challenge` (lines 183-191):
the while loop walks every parameter and assigns `autn` on every
case-insensitive name match, without breaking, so a later match overwrites
an earlier one. -/
def scan_autn : List Param → String → String
  | [], acc => acc
  | p :: ps, acc =>
      scan_autn ps (if pj_stricmp_eq p.name STR_AUTN then p.value else acc)

/-- The resync token (`autn`) `create_challenge` extracts from the request:
empty when there is no Authorization header, otherwise the result of the
scan over `other_param` starting from the empty string. -/
def challenge_autn (auth_hdr : Option DigestCredential) : String :=
  match auth_hdr with
  | some h => scan_autn h.other_param ""
  | none => ""

/-- The resync-token extraction as the SPEC words it (for comparison with
`challenge_autn`, which follows the source): "scan all extension parameters
by name; first match wins; case-insensitive name comparison". -/
def challenge_autn_spec_first_match (auth_hdr : Option DigestCredential) : String :=
  match auth_hdr with
  | some h =>
      match h.other_param.find? (fun p => pj_stricmp_eq p.name STR_AUTN) with
      | some p => p.value
      | none => ""
  | none => ""

/-- The digest challenge part of the WWW-Authenticate header built by
`create_challenge` (`hdr->challenge.digest`). -/
structure ChallengeDigest where
  scheme : String
  realm : String
  algorithm : String
  nonce : String
  opaqueVal : String
  qop : String
  stale : Bool
  other_param : List Param
deriving DecidableEq, Repr

/-- Observable external effects of the authentication module: a credential
fetch from the HSS, and reads/writes of the AV store. -/
inductive AuthEvent where
  | hssCall (impi impu autn : String)
  | storeGet (impi nonce : String)
  | storeSet (impi nonce : String)
deriving DecidableEq, Repr

/-- Result of `create_challenge`: the WWW-Authenticate header added to the
response (when a vector was obtained), whether the response status was
overwritten with forbidden, the AV store after the call, and the trace of
external events. -/
structure ChallengeOutcome where
  hdr : Option ChallengeDigest
  forbidden : Bool
  store : AvStore
  events : List AuthEvent
deriving DecidableEq, Repr

/-- `create_challenge` (lines 153-270).  External collaborators enter as
arguments: `hss impi impu autn` is `hss->get_auth_vector` (the SAS trail
argument is observability only and omitted); `r1` and `r2` are the
successive outputs of `pj_create_random_string` (the AKA branch draws one
random string, for the opaque value; the digest branch draws two, first the
nonce then the opaque value).  `realm` is `auth_srv.realm`. -/
def create_challenge (hss : String → String → String → Option AV)
    (realm r1 r2 : String) (auth_hdr : Option DigestCredential) (impu : String)
    (store : AvStore) : ChallengeOutcome :=
  let impi := challenge_impi auth_hdr impu
  let autn := challenge_autn auth_hdr
  match hss impi impu autn with
  | some av =>
      match av with
      | AV.aka challenge _response ck ik =>
          let nonce := challenge
          let hdr : ChallengeDigest :=
            { scheme := STR_DIGEST
              realm := realm
              algorithm := STR_AKAV1_MD5
              nonce := nonce
              opaqueVal := r1
              qop := STR_AUTH
              stale := false
              other_param := [⟨STR_CK, ck⟩, ⟨STR_IK, ik⟩] }
          { hdr := some hdr
            forbidden := false
            store := set_av store impi nonce av
            events := [AuthEvent.hssCall impi impu autn,
                       AuthEvent.storeSet impi nonce] }
      | AV.digest _realm qop _ha1 =>
          let nonce := r1
          let hdr : ChallengeDigest :=
            { scheme := STR_DIGEST
              realm := realm
              algorithm := STR_MD5
              nonce := nonce
              opaqueVal := r2
              qop := qop
              stale := false
              other_param := [] }
          { hdr := some hdr
            forbidden := false
            store := set_av store impi nonce av
            events := [AuthEvent.hssCall impi impu autn,
                       AuthEvent.storeSet impi nonce] }
  | none =>
      { hdr := none
        forbidden := true
        store := store
        events := [AuthEvent.hssCall impi impu autn] }

/-- The nonce value `create_challenge` actually places in the challenge
header and uses as the store key: the vector's embedded challenge value for
the AKA variant, the first minted random string `r1` for the Digest
variant. -/
def nonce_used (av : AV) (r1 : String) : String :=
  match av with
  | AV.aka c _ _ _ => c
  | AV.digest _ _ _ => r1

/-- Outcome of response verification, following the spec's error taxonomy:
absence of the stored vector is `noSuchChallenge`, a present vector with a
mismatching response is `badCredentials`. -/
inductive VerifyResult where
  | success
  | noSuchChallenge
  | badCredentials
deriving DecidableEq, Repr

/-- The credential material `user_lookup` hands back to the pjsip verifier:
an AKA vector yields the plain-text response as password material
(`PJSIP_CRED_DATA_PLAIN_PASSWD`), a digest vector the ha1 hash
(`PJSIP_CRED_DATA_DIGEST`). -/
inductive CredData where
  | plainPasswd (data : String)
  | digestHa1 (data : String)
deriving DecidableEq, Repr

/-- `user_lookup` (lines 107-150): fetch the AV for `(impi, nonce)` from the
store; absence gives `PJSIP_EAUTHACCNOTFOUND` (here `none`).  The heap copy
of the AV is freed at the end (`delete av`); the store entry itself is not
removed. -/
def user_lookup (store : AvStore) (acc_name nonce : String) : Option CredData :=
  match get_av store acc_name nonce with
  | some (AV.aka _ response _ _) => some (CredData.plainPasswd response)
  | some (AV.digest _ _ ha1) => some (CredData.digestHa1 ha1)
  | none => none

/-- Modelled from the spec: `pjsip_auth_srv_verify`, the external pjsip
verification routine consumed at its interface boundary.  It obtains
credential material through the registered `user_lookup`, determines the
expected response — for first-generation AKA the stored plain-text response
is compared directly (spec sections 3, 4.2 and 9); for digest material the
standard digest computation over the stored ha1 and the request, abstracted
here as the argument `digestOf` — and compares it with the response supplied
in the request.  The verifier reads the store only through `user_lookup` and
never writes it; the store after the call is returned to keep the store
threading explicit. -/
def pjsip_auth_srv_verify (digestOf : String → DigestCredential → String)
    (store : AvStore) (h : DigestCredential) : VerifyResult × AvStore :=
  match user_lookup store h.username h.nonce with
  | none => (VerifyResult.noSuchChallenge, store)
  | some (CredData.plainPasswd response) =>
      (if h.response == response then VerifyResult.success
       else VerifyResult.badCredentials, store)
  | some (CredData.digestHa1 ha1) =>
      (if h.response == digestOf ha1 h then VerifyResult.success
       else VerifyResult.badCredentials, store)

/-- The SIP methods `authenticate_rx_request` distinguishes
(`PJSIP_REGISTER_METHOD`, `PJSIP_ACK_METHOD`, `PJSIP_CANCEL_METHOD`, rest). -/
inductive SipMethod where
  | register
  | ack
  | cancel
  | invite
  | other
deriving DecidableEq, Repr

/-- An inbound request as authenticate_rx_request reads it: the request
method, the (possibly absent) Authorization header, and the public identity
taken from the To header URI (`PJUtils::public_id_from_uri`). -/
structure RxRequest where
  method : SipMethod
  auth_hdr : Option DigestCredential
  impu : String
deriving DecidableEq, Repr

/-- What `authenticate_rx_request` does with the request: `passthrough`
returns `PJ_FALSE` (the request continues up the stack, no response from
this module); `drop` absorbs the request with no response at all; `respond`
absorbs it and sends a response with the given status, carrying a challenge
header when one was built. -/
inductive AuthAction where
  | passthrough
  | drop
  | respond (status : Nat) (challenge : Option ChallengeDigest)
deriving DecidableEq, Repr

/-- The integrity-protection bypass test (lines 288-304): the first
`integrity-protected` parameter of the Authorization header (found by
`pjsip_param_find`) carries one of the trusted values, compared
case-insensitively. -/
def integrity_protected_bypass (auth_hdr : Option DigestCredential) : Bool :=
  match auth_hdr with
  | some h =>
      match pjsip_param_find h.other_param STR_INTEGRITY_PROTECTED with
      | some p =>
          pj_stricmp_eq p.value STR_YES || pj_stricmp_eq p.value STR_TLS_YES ||
            pj_stricmp_eq p.value STR_IP_ASSOC_YES
      | none => false
  | none => false

/-- `authenticate_rx_request` (lines 273-422).  Returns the action taken,
the trace of credential-source and store events, and the store after the
call.  The SAS marker reporting (lines 329-357) is observability only and
not modelled.  The stateless-response path for a failed `create_response`
(lines 382-393) is an external allocation failure and not modelled. -/
def authenticate_rx_request (hss : String → String → String → Option AV)
    (digestOf : String → DigestCredential → String)
    (realm r1 r2 : String) (store : AvStore) (req : RxRequest) :
    AuthAction × List AuthEvent × AvStore :=
  if req.method ≠ SipMethod.register then
    -- lines 277-282: non-REGISTER requests are never authenticated here
    (AuthAction.passthrough, [], store)
  else if integrity_protected_bypass req.auth_hdr then
    -- lines 288-304: already integrity protected, let it through
    (AuthAction.passthrough, [], store)
  else
    -- lines 309-323: attempt verification only when the header is present
    -- with a non-empty response; `none` leaves status == PJSIP_EAUTHNOAUTH
    let attempt : Option (VerifyResult × List AuthEvent) :=
      match req.auth_hdr with
      | some h =>
          if h.response.length ≠ 0 then
            some ((pjsip_auth_srv_verify digestOf store h).1,
                  [AuthEvent.storeGet h.username h.nonce])
          else none
      | none => none
    match attempt with
    | some (VerifyResult.success, evs) => (AuthAction.passthrough, evs, store)
    | other =>
        let evs :=
          match other with
          | some (_, evs) => evs
          | none => []
        if req.method = SipMethod.ack then
          -- lines 359-363: discard the unauthenticated ACK silently
          (AuthAction.drop, evs, store)
        else if req.method = SipMethod.cancel then
          -- lines 364-375: reject the unauthenticated CANCEL statelessly
          (AuthAction.respond PJSIP_SC_FORBIDDEN none, evs, store)
        else
          match other with
          | none =>
              -- lines 376-397: no authentication information, so challenge
              let out := create_challenge hss realm r1 r2 req.auth_hdr req.impu store
              (AuthAction.respond
                 (if out.forbidden then PJSIP_SC_FORBIDDEN else PJSIP_SC_UNAUTHORIZED)
                 out.hdr,
               evs ++ out.events, out.store)
          | some _ =>
              -- lines 398-419: authentication failed, reject with sc
              (AuthAction.respond PJSIP_SC_UNAUTHORIZED none, evs, store)

end Sprout

namespace Quiescing

/-- The states of the QuiescingManager state machine (`STATE_ACTIVE`,
`STATE_QUIESCING_FLOWS`, `STATE_QUIESCING_CONNS`, `STATE_QUIESCED`; the
assignments in the source write the same constants without the `STATE_`
prefix). -/
inductive QState where
  | active
  | quiescingFlows
  | quiescingConns
  | quiesced
deriving DecidableEq, Repr

/-- The inputs of the QuiescingManager state machine (`INPUT_QUIESCE`,
`INPUT_FLOWS_GONE`, `INPUT_CONNS_GONE`, `INPUT_UNQUIESCE`). -/
inductive QInput where
  | quiesce
  | flowsGone
  | connsGone
  | unquiesce
deriving DecidableEq, Repr

/-- The calls `QuiescingManager::process_input` can make, in order.
`invalidInput input state` records a call of `invalid_input(input, _state)`,
whose body executes `assert(false)`. -/
inductive QAction where
  | quiesceUntrustedInterface
  | quiesceConnections
  | quiesceComplete
  | unquiesceConnections
  | unquiesceUntrustedInterface
  | invalidInput (input : QInput) (state : QState)
deriving DecidableEq, Repr

/-- The inner `switch (input)` of the `STATE_ACTIVE` case (lines 116-133):
new state and calls made, given the current `_state` value `s`. -/
def active_case (input : QInput) (s : QState) : QState × List QAction :=
  match input with
  | QInput.quiesce => (QState.quiescingFlows, [QAction.quiesceUntrustedInterface])
  | QInput.flowsGone => (s, [])
  | QInput.connsGone => (s, [])
  | QInput.unquiesce => (s, [QAction.invalidInput QInput.unquiesce s])

/-- The inner `switch (input)` of the `STATE_QUIESCING_FLOWS` case
(lines 135-157). -/
def quiescing_flows_case (input : QInput) (s : QState) : QState × List QAction :=
  match input with
  | QInput.quiesce => (s, [QAction.invalidInput QInput.quiesce s])
  | QInput.flowsGone => (QState.quiescingConns, [QAction.quiesceConnections])
  | QInput.connsGone => (s, [])
  | QInput.unquiesce => (QState.active, [QAction.unquiesceUntrustedInterface])

/-- The inner `switch (input)` of the `STATE_QUIESCING_CONNS` case
(lines 159-182). -/
def quiescing_conns_case (input : QInput) (s : QState) : QState × List QAction :=
  match input with
  | QInput.quiesce => (s, [QAction.invalidInput QInput.quiesce s])
  | QInput.flowsGone => (s, [])
  | QInput.connsGone => (QState.quiesced, [QAction.quiesceComplete])
  | QInput.unquiesce =>
      (QState.active,
       [QAction.unquiesceConnections, QAction.unquiesceUntrustedInterface])

/-- The inner `switch (input)` of the `STATE_QUIESCED` case (lines 184-198). -/
def quiesced_case (input : QInput) (s : QState) : QState × List QAction :=
  match input with
  | QInput.quiesce => (s, [])
  | QInput.flowsGone => (s, [QAction.invalidInput QInput.flowsGone s])
  | QInput.connsGone => (s, [QAction.invalidInput QInput.connsGone s])
  | QInput.unquiesce => (s, [])

/-- `QuiescingManager::process_input` (lines 102-200).  The `case
STATE_ACTIVE:` arm of the outer `switch (_state)` has no `break` before
`case STATE_QUIESCING_FLOWS:` (line 133 ends its inner switch and line 135
starts the next case), so after the `STATE_ACTIVE` handling control falls
through into the `STATE_QUIESCING_FLOWS` handling with the already-updated
`_state`; the other three arms end in `break`.  Returns the final `_state`
and the calls made, in order. -/
def process_input (s : QState) (input : QInput) : QState × List QAction :=
  match s with
  | QState.active =>
      let r1 := active_case input s
      let r2 := quiescing_flows_case input r1.1
      (r2.1, r1.2 ++ r2.2)
  | QState.quiescingFlows => quiescing_flows_case input s
  | QState.quiescingConns => quiescing_conns_case input s
  | QState.quiesced => quiesced_case input s

/-- Whether a run of `process_input` reached `invalid_input` (and hence its
`assert(false)`). -/
def reached_invalid_input (actions : List QAction) : Bool :=
  actions.any (fun a =>
    match a with
    | QAction.invalidInput _ _ => true
    | _ => false)

end Quiescing

namespace MMF

/-- The per-address MMF configuration (`MMFCfg`; mmf.h is not in the slice).
Modelled from the use sites in mmfservice.h: `apply_pre_as()` and
`apply_post_as()` are accessors of two boolean settings. -/
structure MMFCfg where
  pre_as : Bool
  post_as : Bool
deriving DecidableEq, Repr

/-- `MMFCfg::apply_pre_as()`. -/
def MMFCfg.apply_pre_as (c : MMFCfg) : Bool := c.pre_as

/-- `MMFCfg::apply_post_as()`. -/
def MMFCfg.apply_post_as (c : MMFCfg) : Bool := c.post_as

/-- The `_mmf_config` member: a `std::map<std::string, MMFCfg::ptr>`,
embedded as an association list with at most one entry per key assumed
nowhere (lookups take the first match, as `std::map` has unique keys). -/
abbrev MMFConfigMap : Type := List (String × MMFCfg)

/-- `std::map::count(address)` as used by `has_config_for_address`. -/
def map_count (m : MMFConfigMap) (address : String) : Nat :=
  if (m.find? (fun e => e.1 == address)).isSome then 1 else 0

/-- `MMFService::has_config_for_address` (lines 42-45): the integer
`count` converted to `bool`. -/
def has_config_for_address (m : MMFConfigMap) (address : String) : Bool :=
  map_count m address ≠ 0

/-- `MMFService::get_address_config` (lines 37-40): `_mmf_config.at(address)`,
which throws `std::out_of_range` when the key is absent; embedded in
`Except`. -/
def get_address_config (m : MMFConfigMap) (address : String) :
    Except String MMFCfg :=
  match m.find? (fun e => e.1 == address) with
  | some e => Except.ok e.2
  | none => Except.error "std::out_of_range"

/-- `MMFService::apply_mmf_pre_as` (lines 47-57): the `&&` short-circuits,
so `get_address_config` (and its throwing `at`) runs only after
`has_config_for_address` returned true; the `if` returns `true` on a true
condition and `false` otherwise.  A thrown exception propagates as
`Except.error`. -/
def apply_mmf_pre_as (m : MMFConfigMap) (address : String) :
    Except String Bool :=
  if has_config_for_address m address then
    match get_address_config m address with
    | Except.ok c => Except.ok (if c.apply_pre_as then true else false)
    | Except.error e => Except.error e
  else
    Except.ok false

/-- `MMFService::apply_mmf_post_as` (lines 59-69), same shape as
`apply_mmf_pre_as` with the post-AS setting. -/
def apply_mmf_post_as (m : MMFConfigMap) (address : String) :
    Except String Bool :=
  if has_config_for_address m address then
    match get_address_config m address with
    | Except.ok c => Except.ok (if c.apply_post_as then true else false)
    | Except.error e => Except.error e
  else
    Except.ok false

end MMF

/-! ## Theorems settling the claims -/

namespace Sprout

/-- The fold of the resync scan keeps the value of the LAST matching
parameter: `scan_autn ps acc` is the value of the last parameter of `ps`
whose name matches `STR_AUTN` case-insensitively, or `acc` when none does. -/
theorem scan_autn_eq_last (ps : List Param) (acc : String) :
    scan_autn ps acc =
      (((ps.filter (fun p => pj_stricmp_eq p.name STR_AUTN)).getLast?).map
        Param.value).getD acc := by
  induction ps generalizing acc with
  | nil => rfl
  | cons p ps ih =>
    simp only [scan_autn, List.filter_cons, ih]
    cases hp : pj_stricmp_eq p.name STR_AUTN with
    | false => simp
    | true =>
      simp only [if_pos trivial]
      cases hq : (ps.filter (fun p => pj_stricmp_eq p.name STR_AUTN)).getLast? with
      | none => simp [List.getLast?_cons, hq]
      | some q => simp [List.getLast?_cons, hq]

/-- C1 (counterexample): a successful verification does NOT consume the
stored vector.  With the vector for ("alice", "n1") in the store, a first
verification of a matching response succeeds, and a second verification
against the same `(privateId, nonce)` on the store left by the first one
succeeds again instead of returning `Failure(NoSuchChallenge)`. -/
theorem C1_counterexample :
    (pjsip_auth_srv_verify (fun _ _ => "")
        (set_av AvStore.empty "alice" "n1" (AV.aka "n1" "resp1" "ck1" "ik1"))
        { username := "alice", response := "resp1", nonce := "n1",
          other_param := [] }).1 = VerifyResult.success ∧
    (pjsip_auth_srv_verify (fun _ _ => "")
        (pjsip_auth_srv_verify (fun _ _ => "")
            (set_av AvStore.empty "alice" "n1" (AV.aka "n1" "resp1" "ck1" "ik1"))
            { username := "alice", response := "resp1", nonce := "n1",
              other_param := [] }).2
        { username := "alice", response := "resp1", nonce := "n1",
          other_param := [] }).1 = VerifyResult.success ∧
    VerifyResult.success ≠ VerifyResult.noSuchChallenge := by
  decide

/-- C1 (amended): verification never modifies the vector store — `user_lookup`
reads the entry and frees only its heap copy, and no code on the verification
path deletes the `(privateId, nonce)` entry — so after a successful first
verification a second verification attempt against the same
`(privateId, nonce)` succeeds again (rather than returning
`Failure(NoSuchChallenge)`); entries leave the store only through
expiry/eviction. -/
theorem C1_verify_leaves_store_unchanged
    (digestOf : String → DigestCredential → String)
    (store : AvStore) (h : DigestCredential) :
    (pjsip_auth_srv_verify digestOf store h).2 = store ∧
    ((pjsip_auth_srv_verify digestOf store h).1 = VerifyResult.success →
      (pjsip_auth_srv_verify digestOf
          (pjsip_auth_srv_verify digestOf store h).2 h).1
        = VerifyResult.success) := by
  have hsnd : (pjsip_auth_srv_verify digestOf store h).2 = store := by
    unfold pjsip_auth_srv_verify
    cases user_lookup store h.username h.nonce with
    | none => rfl
    | some cd =>
      cases cd with
      | plainPasswd d => rfl
      | digestHa1 d => rfl
  exact ⟨hsnd, fun hsucc => by rw [hsnd]; exact hsucc⟩

/-- Witness for C1's amended theorem at a concrete input: the second
verification against ("bob", "n2") succeeds after the first one did. -/
theorem C1_verify_leaves_store_unchanged_witness :
    (pjsip_auth_srv_verify (fun _ _ => "")
        (pjsip_auth_srv_verify (fun _ _ => "")
            (set_av AvStore.empty "bob" "n2" (AV.aka "n2" "resp2" "ck2" "ik2"))
            { username := "bob", response := "resp2", nonce := "n2",
              other_param := [] }).2
        { username := "bob", response := "resp2", nonce := "n2",
          other_param := [] }).1 = VerifyResult.success :=
  (C1_verify_leaves_store_unchanged (fun _ _ => "")
      (set_av AvStore.empty "bob" "n2" (AV.aka "n2" "resp2" "ck2" "ik2"))
      { username := "bob", response := "resp2", nonce := "n2",
        other_param := [] }).2 (by decide)

/-- C2 (counterexample): the resync scan does not stop at the first matching
extension parameter.  For a credential header carrying two parameters whose
names match `auts` case-insensitively, with values "A" then "B", the source
loop (which overwrites on every match) extracts "B", while the spec's
first-match rule (`challenge_autn_spec_first_match`) extracts "A". -/
theorem C2_counterexample :
    challenge_autn
      (some { username := "u", response := "", nonce := "",
              other_param := [⟨"auts", "A"⟩, ⟨"AUTS", "B"⟩] }) = "B" ∧
    challenge_autn_spec_first_match
      (some { username := "u", response := "", nonce := "",
              other_param := [⟨"auts", "A"⟩, ⟨"AUTS", "B"⟩] }) = "A" ∧
    ("B" : String) ≠ "A" := by
  decide

/-- C2 (amended): the resync token is extracted by scanning all extension
parameters by name with case-insensitive comparison, the LAST parameter
whose name matches winning (the loop overwrites `autn` on every match), and
that value is forwarded verbatim as the third argument of the
CredentialSource call, which heads the event trace of every challenge
construction; in particular a header whose only matching parameter is
`auts = "XYZ"` results in CredentialSource being invoked with resync token
"XYZ". -/
theorem C2_resync_last_match_forwarded
    (hss : String → String → String → Option AV) (realm r1 r2 : String)
    (h : DigestCredential) (impu : String) (store : AvStore) :
    (create_challenge hss realm r1 r2 (some h) impu store).events.head? =
      some (AuthEvent.hssCall (challenge_impi (some h) impu) impu
        (challenge_autn (some h))) ∧
    challenge_autn (some h) =
      (((h.other_param.filter (fun p => pj_stricmp_eq p.name STR_AUTN)).getLast?).map
        Param.value).getD "" ∧
    challenge_autn
      (some { username := "u", response := "", nonce := "",
              other_param := [⟨"auts", "XYZ"⟩] }) = "XYZ" := by
  refine ⟨?_, ?_, by decide⟩
  · unfold create_challenge
    cases hav : hss (challenge_impi (some h) impu) impu (challenge_autn (some h)) with
    | none => simp [hav]
    | some av =>
      cases av with
      | aka c resp ck ik => simp [hav]
      | digest r q ha1 => simp [hav]
  · exact scan_autn_eq_last h.other_param ""

end Sprout

namespace Sprout

/-- C3: for every AKA authentication vector, the nonce field of the emitted
challenge header equals the vector's embedded challenge value exactly (and
the algorithm tag is AKAv1-MD5); the locally minted random strings `r1`,
`r2` play no part in the nonce. -/
theorem C3_aka_nonce_from_vector
    (hss : String → String → String → Option AV) (realm r1 r2 : String)
    (auth_hdr : Option DigestCredential) (impu : String) (store : AvStore)
    (c resp ck ik : String)
    (hhss : hss (challenge_impi auth_hdr impu) impu (challenge_autn auth_hdr)
              = some (AV.aka c resp ck ik)) :
    ∃ hdr, (create_challenge hss realm r1 r2 auth_hdr impu store).hdr = some hdr ∧
      hdr.nonce = c ∧ hdr.algorithm = STR_AKAV1_MD5 := by
  unfold create_challenge
  simp only [hhss]
  exact ⟨_, rfl, rfl, rfl⟩

/-- Witness for C3 at `challengeNonce = "abc123"`: the challenge header's
nonce is "abc123", not the minted random string "minted-nonce". -/
theorem C3_aka_nonce_from_vector_witness :
    ∃ hdr,
      (create_challenge (fun _ _ _ => some (AV.aka "abc123" "resp" "ck" "ik"))
          "realm" "minted-nonce" "minted-opaque" none "sip:bob@example.com"
          AvStore.empty).hdr = some hdr ∧
      hdr.nonce = "abc123" ∧ hdr.algorithm = STR_AKAV1_MD5 :=
  C3_aka_nonce_from_vector (fun _ _ _ => some (AV.aka "abc123" "resp" "ck" "ik"))
    "realm" "minted-nonce" "minted-opaque" none "sip:bob@example.com"
    AvStore.empty "abc123" "resp" "ck" "ik" rfl

/-- C4: on every successful challenge construction exactly one VectorStore
insertion occurs — the event trace is the CredentialSource call followed by
a single `storeSet` — and it is keyed by `(privateId, nonceUsed)` where
`nonceUsed` is the nonce placed in the challenge header: the vector's own
challenge value for the AKA variant, the freshly minted random nonce `r1`
for the Digest variant. -/
theorem C4_single_insertion_keyed_by_nonce
    (hss : String → String → String → Option AV) (realm r1 r2 : String)
    (auth_hdr : Option DigestCredential) (impu : String) (store : AvStore)
    (av : AV)
    (hhss : hss (challenge_impi auth_hdr impu) impu (challenge_autn auth_hdr)
              = some av) :
    ∃ hdr, (create_challenge hss realm r1 r2 auth_hdr impu store).hdr = some hdr ∧
      (create_challenge hss realm r1 r2 auth_hdr impu store).store
        = set_av store (challenge_impi auth_hdr impu) hdr.nonce av ∧
      (create_challenge hss realm r1 r2 auth_hdr impu store).events
        = [AuthEvent.hssCall (challenge_impi auth_hdr impu) impu
             (challenge_autn auth_hdr),
           AuthEvent.storeSet (challenge_impi auth_hdr impu) hdr.nonce] ∧
      hdr.nonce = nonce_used av r1 := by
  cases av with
  | aka c resp ck ik =>
    unfold create_challenge nonce_used
    simp only [hhss]
    exact ⟨_, rfl, rfl, rfl, rfl⟩
  | digest re q ha1 =>
    unfold create_challenge nonce_used
    simp only [hhss]
    exact ⟨_, rfl, rfl, rfl, rfl⟩

/-- Witness for C4 on the Digest variant: the single insertion is keyed by
the minted nonce "minted-nonce". -/
theorem C4_single_insertion_keyed_by_nonce_witness :
    ∃ hdr,
      (create_challenge (fun _ _ _ => some (AV.digest "realm" "auth" "ha1"))
          "realm" "minted-nonce" "minted-opaque" none "sip:bob@example.com"
          AvStore.empty).hdr = some hdr ∧
      (create_challenge (fun _ _ _ => some (AV.digest "realm" "auth" "ha1"))
          "realm" "minted-nonce" "minted-opaque" none "sip:bob@example.com"
          AvStore.empty).store
        = set_av AvStore.empty
            (challenge_impi none "sip:bob@example.com") hdr.nonce
            (AV.digest "realm" "auth" "ha1") ∧
      (create_challenge (fun _ _ _ => some (AV.digest "realm" "auth" "ha1"))
          "realm" "minted-nonce" "minted-opaque" none "sip:bob@example.com"
          AvStore.empty).events
        = [AuthEvent.hssCall (challenge_impi none "sip:bob@example.com")
             "sip:bob@example.com" (challenge_autn none),
           AuthEvent.storeSet (challenge_impi none "sip:bob@example.com")
             hdr.nonce] ∧
      hdr.nonce = "minted-nonce" :=
  C4_single_insertion_keyed_by_nonce
    (fun _ _ _ => some (AV.digest "realm" "auth" "ha1"))
    "realm" "minted-nonce" "minted-opaque" none "sip:bob@example.com"
    AvStore.empty (AV.digest "realm" "auth" "ha1") rfl

/-- C5: a request whose credential header carries the integrity-protected
flag (the parameter `pjsip_param_find` locates, name compared
case-insensitively) with one of the three trusted values bypasses
authentication entirely: the module passes it through (`PJ_FALSE`) with an
empty event trace — no CredentialSource call, no VectorStore access — and
an unchanged store; no challenge is issued. -/
theorem C5_trusted_integrity_bypasses
    (hss : String → String → String → Option AV)
    (digestOf : String → DigestCredential → String)
    (realm r1 r2 : String) (store : AvStore) (req : RxRequest)
    (h : DigestCredential) (p : Param)
    (hhdr : req.auth_hdr = some h)
    (hfind : pjsip_param_find h.other_param STR_INTEGRITY_PROTECTED = some p)
    (hval : pj_stricmp_eq p.value STR_YES = true ∨
            pj_stricmp_eq p.value STR_TLS_YES = true ∨
            pj_stricmp_eq p.value STR_IP_ASSOC_YES = true) :
    authenticate_rx_request hss digestOf realm r1 r2 store req
      = (AuthAction.passthrough, [], store) := by
  have hbyp : integrity_protected_bypass req.auth_hdr = true := by
    rw [hhdr]
    simp only [integrity_protected_bypass, hfind]
    rcases hval with hv | hv | hv <;> simp [hv]
  by_cases hm : req.method = SipMethod.register
  · unfold authenticate_rx_request
    rw [if_neg (by simp [hm]), if_pos hbyp]
  · unfold authenticate_rx_request
    rw [if_pos hm]

/-- Witness for C5: a REGISTER request whose Authorization header carries
`integrity-protected=tls-yes` is passed through with no events. -/
theorem C5_trusted_integrity_bypasses_witness :
    authenticate_rx_request (fun _ _ _ => none) (fun _ _ => "") "realm"
      "r1" "r2" AvStore.empty
      { method := SipMethod.register,
        auth_hdr := some { username := "alice", response := "", nonce := "",
                           other_param := [⟨"Integrity-Protected", "tls-yes"⟩] },
        impu := "sip:alice@example.com" }
      = (AuthAction.passthrough, [], AvStore.empty) :=
  C5_trusted_integrity_bypasses (fun _ _ _ => none) (fun _ _ => "") "realm"
    "r1" "r2" AvStore.empty
    { method := SipMethod.register,
      auth_hdr := some { username := "alice", response := "", nonce := "",
                         other_param := [⟨"Integrity-Protected", "tls-yes"⟩] },
      impu := "sip:alice@example.com" }
    { username := "alice", response := "", nonce := "",
      other_param := [⟨"Integrity-Protected", "tls-yes"⟩] }
    ⟨"Integrity-Protected", "tls-yes"⟩
    rfl (by decide) (Or.inr (Or.inl (by decide)))

/-- C6: when CredentialSource returns absent, the challenge path overwrites
the response status with the fixed forbidden status (403), performs zero
VectorStore insertions (the store is unchanged and the event trace holds
only the CredentialSource call), and issues no challenge header. -/
theorem C6_forbidden_no_insertion
    (hss : String → String → String → Option AV) (realm r1 r2 : String)
    (auth_hdr : Option DigestCredential) (impu : String) (store : AvStore)
    (hhss : hss (challenge_impi auth_hdr impu) impu (challenge_autn auth_hdr)
              = none) :
    create_challenge hss realm r1 r2 auth_hdr impu store
      = { hdr := none, forbidden := true, store := store,
          events := [AuthEvent.hssCall (challenge_impi auth_hdr impu) impu
                       (challenge_autn auth_hdr)] } ∧
    PJSIP_SC_FORBIDDEN = 403 := by
  constructor
  · unfold create_challenge
    simp only [hhss]
  · rfl

/-- Witness for C6: a credential source returning absent yields the
forbidden outcome with no insertion. -/
theorem C6_forbidden_no_insertion_witness :
    create_challenge (fun _ _ _ => none) "realm" "r1" "r2" none
      "sip:carol@example.com" AvStore.empty
      = { hdr := none, forbidden := true, store := AvStore.empty,
          events := [AuthEvent.hssCall
            (challenge_impi none "sip:carol@example.com")
            "sip:carol@example.com" (challenge_autn none)] } ∧
    PJSIP_SC_FORBIDDEN = 403 :=
  C6_forbidden_no_insertion (fun _ _ _ => none) "realm" "r1" "r2" none
    "sip:carol@example.com" AvStore.empty rfl

end Sprout

namespace Sprout

/-- C7 (counterexample): an unauthenticated ACK request is NOT silently
dropped and an unauthenticated CANCEL request is NOT rejected with an error
status — both are passed through (`PJ_FALSE`) by the early non-REGISTER
bypass before the discard/reject branches can run. -/
theorem C7_counterexample :
    authenticate_rx_request (fun _ _ _ => none) (fun _ _ => "") "realm" "r1"
        "r2" AvStore.empty
        { method := SipMethod.ack, auth_hdr := none,
          impu := "sip:alice@example.com" }
      = (AuthAction.passthrough, [], AvStore.empty) ∧
    authenticate_rx_request (fun _ _ _ => none) (fun _ _ => "") "realm" "r1"
        "r2" AvStore.empty
        { method := SipMethod.cancel, auth_hdr := none,
          impu := "sip:alice@example.com" }
      = (AuthAction.passthrough, [], AvStore.empty) ∧
    AuthAction.passthrough ≠ AuthAction.drop ∧
    AuthAction.passthrough ≠ AuthAction.respond PJSIP_SC_FORBIDDEN none := by
  refine ⟨rfl, rfl, by decide, by decide⟩

/-- C7 (amended): every non-REGISTER request — in particular an
unauthenticated ACK or CANCEL — is passed through by the early method check
with no response, no events and an unchanged store; the ACK-discard branch
is unreachable (no run of `authenticate_rx_request` ever produces `drop`),
because the branch requires the method to be simultaneously REGISTER (to
pass the first check) and ACK. -/
theorem C7_nonregister_passthrough
    (hss : String → String → String → Option AV)
    (digestOf : String → DigestCredential → String)
    (realm r1 r2 : String) (store : AvStore) (req : RxRequest)
    (hm : req.method ≠ SipMethod.register) :
    authenticate_rx_request hss digestOf realm r1 r2 store req
      = (AuthAction.passthrough, [], store) ∧
    ∀ req2 : RxRequest,
      (authenticate_rx_request hss digestOf realm r1 r2 store req2).1
        ≠ AuthAction.drop := by
  constructor
  · unfold authenticate_rx_request
    rw [if_pos hm]
  · intro req2
    by_cases h1 : req2.method = SipMethod.register
    · unfold authenticate_rx_request
      rw [if_neg (by simp [h1])]
      by_cases h2 : integrity_protected_bypass req2.auth_hdr = true
      · rw [if_pos h2]
        simp
      · rw [if_neg h2]
        simp only [h1]
        split
        · simp
        · rw [if_neg (by decide), if_neg (by decide)]
          split
          · split <;> simp
          · simp
    · unfold authenticate_rx_request
      rw [if_pos h1]
      simp

/-- Witness for C7's amended theorem: a CANCEL request without credentials
is passed through with no events. -/
theorem C7_nonregister_passthrough_witness :
    authenticate_rx_request (fun _ _ _ => none) (fun _ _ => "") "realm" "r1"
        "r2" AvStore.empty
        { method := SipMethod.cancel, auth_hdr := none,
          impu := "sip:carol@example.com" }
      = (AuthAction.passthrough, [], AvStore.empty) :=
  (C7_nonregister_passthrough (fun _ _ _ => none) (fun _ _ => "") "realm"
    "r1" "r2" AvStore.empty
    { method := SipMethod.cancel, auth_hdr := none,
      impu := "sip:carol@example.com" }
    (by decide)).1

/-- C8: when building a challenge, the private identity is the credential
header's username whenever the header is present with a non-empty username;
otherwise it is derived deterministically from the public identity by
stripping the scheme prefix. -/
theorem C8_private_identity_selection (h : DigestCredential) (impu : String) :
    (h.username.length ≠ 0 → challenge_impi (some h) impu = h.username) ∧
    (h.username.length = 0 →
      challenge_impi (some h) impu = default_private_id_from_uri impu) ∧
    challenge_impi none impu = default_private_id_from_uri impu ∧
    (impu.data.take 4 = "sip:".data →
      default_private_id_from_uri impu = String.mk (impu.data.drop 4)) := by
  refine ⟨?_, ?_, rfl, ?_⟩
  · intro hu
    simp [challenge_impi, hu]
  · intro hu
    simp [challenge_impi, hu]
  · intro hp
    simp [default_private_id_from_uri, hp]

/-- Witness for C8: a header carrying username "bob@example.com" wins over
the public identity; with no header, "sip:alice@example.com" is stripped to
"alice@example.com". -/
theorem C8_private_identity_selection_witness :
    challenge_impi
        (some { username := "bob@example.com", response := "", nonce := "",
                other_param := [] }) "sip:alice@example.com"
      = "bob@example.com" ∧
    challenge_impi none "sip:alice@example.com" = "alice@example.com" := by
  have h1 := C8_private_identity_selection
    { username := "bob@example.com", response := "", nonce := "",
      other_param := [] } "sip:alice@example.com"
  refine ⟨h1.1 (by decide), ?_⟩
  rw [h1.2.2.1, h1.2.2.2 (by decide)]
  decide

end Sprout

namespace Quiescing

/-- C9: delivering INPUT_QUIESCE in STATE_ACTIVE sets the state to
STATE_QUIESCING_FLOWS and invokes quiesce_untrusted_interface — but, because
the `case STATE_ACTIVE:` arm has no `break`, control falls through into the
`case STATE_QUIESCING_FLOWS:` arm, where input INPUT_QUIESCE calls
`invalid_input` (whose body executes `assert(false)`) during that same call,
contradicting the claim that `invalid_input` is never reached. -/
theorem C9_quiesce_in_active_reaches_invalid_input :
    process_input QState.active QInput.quiesce
      = (QState.quiescingFlows,
         [QAction.quiesceUntrustedInterface,
          QAction.invalidInput QInput.quiesce QState.quiescingFlows]) ∧
    reached_invalid_input (process_input QState.active QInput.quiesce).2
      = true := by
  exact ⟨rfl, rfl⟩

end Quiescing

namespace MMF

/-- C10: `apply_mmf_pre_as` and `apply_mmf_post_as` are total over every
address: they always return a boolean (never propagate the
`std::out_of_range` of `_mmf_config.at`, which the short-circuit `&&`
reaches only after `has_config_for_address` confirmed the key), and for an
address with no configuration entry they return `false`. -/
theorem C10_apply_mmf_total (m : MMFConfigMap) (address : String) :
    (∃ b, apply_mmf_pre_as m address = Except.ok b) ∧
    (∃ b, apply_mmf_post_as m address = Except.ok b) ∧
    (has_config_for_address m address = false →
      apply_mmf_pre_as m address = Except.ok false ∧
      apply_mmf_post_as m address = Except.ok false) := by
  cases hf : m.find? (fun e => e.1 == address) with
  | none =>
    have hc : has_config_for_address m address = false := by
      simp [has_config_for_address, map_count, hf]
    refine ⟨⟨false, ?_⟩, ⟨false, ?_⟩, fun _ => ⟨?_, ?_⟩⟩ <;>
      simp [apply_mmf_pre_as, apply_mmf_post_as, hc]
  | some e =>
    have hc : has_config_for_address m address = true := by
      simp [has_config_for_address, map_count, hf]
    have hg : get_address_config m address = Except.ok e.2 := by
      simp [get_address_config, hf]
    refine ⟨⟨if e.2.apply_pre_as then true else false, ?_⟩,
            ⟨if e.2.apply_post_as then true else false, ?_⟩, fun hcf => ?_⟩
    · simp only [apply_mmf_pre_as, hc, if_true, hg]
    · simp only [apply_mmf_post_as, hc, if_true, hg]
    · rw [hc] at hcf
      simp at hcf

/-- Witness for C10: with an empty configuration map, both functions return
`Except.ok false` for an unconfigured address rather than an error. -/
theorem C10_apply_mmf_total_witness :
    apply_mmf_pre_as [] "sip:mmf@example.com" = Except.ok false ∧
    apply_mmf_post_as [] "sip:mmf@example.com" = Except.ok false :=
  (C10_apply_mmf_total [] "sip:mmf@example.com").2.2 (by decide)

end MMF
